import Mathlib

/-!
Verification of `buck_converter_calculator.py`.

The source is a small set of closed-form formulas over Python floats, which we
embed with exact rational arithmetic (`ℚ`).  Python's `/` raises
`ZeroDivisionError` on a zero denominator; we model a fallible division
`pydiv : ℚ → ℚ → Option ℚ` returning `none` in that case, so an uncaught
exception propagating out of a function is modelled by the function returning
`none`.  The `pint` unit objects only tag magnitudes with units; we track the
magnitudes, with the single unit conversion in the source
(`c_min.to(ureg.uF)`, farad to microfarad) embedded as multiplication
by `1000000`.
-/

namespace BuckConverter

/-- Python float division: raises (here: `none`) when the denominator is 0. -/
def pydiv (a b : ℚ) : Option ℚ :=
  if b = 0 then none else some (a / b)

/-- Module-level default `default_input_voltage = 24.0`. -/
def default_input_voltage : ℚ := 24

/-- Module-level default `default_output_voltage = 5.0`. -/
def default_output_voltage : ℚ := 5

/-- Module-level default `default_output_current = 2.0`. -/
def default_output_current : ℚ := 2

/-- Module-level default `default_switching_frequency = 500e3`. -/
def default_switching_frequency : ℚ := 500000

/-- Module-level default `default_efficiency = 0.9`. -/
def default_efficiency : ℚ := 9 / 10

/-- Module-level default `default_v_pp_max = 75e-3`. -/
def default_v_pp_max : ℚ := 75 / 1000

/-- Module-level default `default_i_out_tr_max = 2`. -/
def default_i_out_tr_max : ℚ := 2

/-- Module-level default `default_v_out_tr_max_allowed = 0.1`. -/
def default_v_out_tr_max_allowed : ℚ := 1 / 10

/-- `get_duty_cycle(v_in, v_out, efficiency)`:
`return v_out / (v_in * efficiency)`. -/
def get_duty_cycle (v_in v_out efficiency : ℚ) : Option ℚ :=
  pydiv v_out (v_in * efficiency)

/-- `get_min_input_capacitance_for_ripple_reduction`:
```
duty_cycle = get_duty_cycle(v_in, v_out, efficiency)
c_min = (i_out * duty_cycle * (1 - duty_cycle) * 1000 * 1000) / (f_sw * V_pp_max)
return c_min * ureg.uF
```
The result of the embedding is the magnitude of the returned quantity; the
source attaches the microfarad unit to `c_min` without rescaling it. -/
def get_min_input_capacitance_for_ripple_reduction
    (v_in v_out i_out efficiency f_sw V_pp_max : ℚ) : Option ℚ := do
  let duty_cycle ← get_duty_cycle v_in v_out efficiency
  pydiv (i_out * duty_cycle * (1 - duty_cycle) * 1000 * 1000) (f_sw * V_pp_max)

/-- `get_min_input_bulk_capacitance`:
```
input_current_transient = v_out / (v_in * efficiency) * max_output_transient_current
input_inductance = 50 + input_filter_inductance
c_min = 1.21 * (input_current_transient ** 2) * (input_inductance * 1e-9) / (max_allowed_voltage_change ** 2)
c_min = c_min * ureg.F
return c_min.to(ureg.uF)
```
The embedding returns the magnitude of the returned quantity in microfarads:
`pint`'s `.to(ureg.uF)` on a quantity in farads multiplies the magnitude by
`1e6`. -/
def get_min_input_bulk_capacitance
    (v_in v_out efficiency max_output_transient_current
     max_allowed_voltage_change input_filter_inductance : ℚ) : Option ℚ := do
  let q ← pydiv v_out (v_in * efficiency)
  let input_current_transient := q * max_output_transient_current
  let input_inductance := 50 + input_filter_inductance
  let c_min ← pydiv (121 / 100 * input_current_transient ^ 2 *
      (input_inductance * (1 / 1000000000))) (max_allowed_voltage_change ^ 2)
  some (c_min * 1000000)

/-- The parameters collected by the `argparse` front end in `main`. -/
structure Args where
  v_in : ℚ
  v_out : ℚ
  i_out : ℚ
  f_sw : ℚ
  efficiency : ℚ
  v_pp_max : ℚ
  i_out_tr_max : ℚ
  v_out_tr_max_allowed : ℚ
  input_inductor : ℚ

/-- The default of every CLI flag, exactly as bound in the
`parser.add_argument` calls of `main`; in particular `--input-inductor`
defaults to `default_v_out_tr_max_allowed`. -/
def defaultArgs : Args :=
  ⟨default_input_voltage, default_output_voltage, default_output_current,
   default_switching_frequency, default_efficiency, default_v_pp_max,
   default_i_out_tr_max, default_v_out_tr_max_allowed,
   default_v_out_tr_max_allowed⟩

/-- Helper: `pydiv` on a nonzero denominator is plain division. -/
lemma pydiv_of_ne (a b : ℚ) (hb : b ≠ 0) : pydiv a b = some (a / b) := by
  simp [pydiv, hb]

/-- Helper: `get_duty_cycle` succeeds on a nonzero denominator. -/
lemma get_duty_cycle_eq (v_in v_out efficiency : ℚ)
    (h : v_in * efficiency ≠ 0) :
    get_duty_cycle v_in v_out efficiency =
      some (v_out / (v_in * efficiency)) := by
  simp [get_duty_cycle, pydiv, h]

/-- C1: for every `v_in > 0`, `v_out ≥ 0`, `efficiency > 0`,
`get_duty_cycle` returns exactly `v_out / (v_in * efficiency)`. -/
theorem duty_cycle_formula (v_in v_out efficiency : ℚ)
    (h1 : 0 < v_in) (h2 : 0 ≤ v_out) (h3 : 0 < efficiency) :
    get_duty_cycle v_in v_out efficiency =
      some (v_out / (v_in * efficiency)) :=
  get_duty_cycle_eq v_in v_out efficiency (by positivity)

/-- Witness for C1 at the CLI defaults `v_in = 24`, `v_out = 5`,
`efficiency = 0.9`. -/
theorem duty_cycle_formula_witness :
    0 < (24 : ℚ) ∧ 0 ≤ (5 : ℚ) ∧ 0 < (9 / 10 : ℚ) ∧
      get_duty_cycle 24 5 (9 / 10) = some (5 / (24 * (9 / 10))) :=
  ⟨by norm_num, by norm_num, by norm_num,
    duty_cycle_formula 24 5 (9 / 10) (by norm_num) (by norm_num) (by norm_num)⟩

/-- Helper: explicit value of the ceramic-capacitance estimator when no
division fails. -/
lemma get_min_input_capacitance_eq
    (v_in v_out i_out efficiency f_sw V_pp_max : ℚ)
    (h1 : v_in * efficiency ≠ 0) (h2 : f_sw * V_pp_max ≠ 0) :
    get_min_input_capacitance_for_ripple_reduction
        v_in v_out i_out efficiency f_sw V_pp_max =
      some ((i_out * (v_out / (v_in * efficiency)) *
        (1 - v_out / (v_in * efficiency)) * 1000 * 1000) /
          (f_sw * V_pp_max)) := by
  simp [get_min_input_capacitance_for_ripple_reduction, get_duty_cycle,
    pydiv, h1, h2]

/-- Helper: explicit value of the bulk-capacitance estimator when no
division fails. -/
lemma get_min_input_bulk_capacitance_eq
    (v_in v_out efficiency i_tr dv l : ℚ)
    (h1 : v_in * efficiency ≠ 0) (h2 : dv ≠ 0) :
    get_min_input_bulk_capacitance v_in v_out efficiency i_tr dv l =
      some (121 / 100 * (v_out / (v_in * efficiency) * i_tr) ^ 2 *
        ((50 + l) * (1 / 1000000000)) / dv ^ 2 * 1000000) := by
  have h2' : dv ^ 2 ≠ 0 := pow_ne_zero 2 h2
  simp [get_min_input_bulk_capacitance, pydiv, h1, h2']

/-- C2: for positive `v_in`, `efficiency`, `f_sw`, `V_pp_max` and
`v_out ≥ 0`, the ceramic-capacitance estimator returns exactly
`(i_out * duty * (1 - duty) * 1e6) / (f_sw * V_pp_max)` with
`duty = v_out / (v_in * efficiency)`, and the returned magnitude is already
the microfarad value (the unit is attached without further scaling). -/
theorem min_ceramic_capacitance_formula
    (v_in v_out i_out efficiency f_sw V_pp_max : ℚ)
    (h1 : 0 < v_in) (h2 : 0 ≤ v_out) (h3 : 0 < efficiency)
    (h4 : 0 < f_sw) (h5 : 0 < V_pp_max) :
    get_min_input_capacitance_for_ripple_reduction
        v_in v_out i_out efficiency f_sw V_pp_max =
      some ((i_out * (v_out / (v_in * efficiency)) *
        (1 - v_out / (v_in * efficiency)) * 1000000) /
          (f_sw * V_pp_max)) := by
  rw [get_min_input_capacitance_eq v_in v_out i_out efficiency f_sw V_pp_max
    (by positivity) (by positivity)]
  ring_nf

/-- Witness for C2 at the CLI defaults. -/
theorem min_ceramic_capacitance_formula_witness :
    0 < (24 : ℚ) ∧ 0 ≤ (5 : ℚ) ∧ 0 < (9 / 10 : ℚ) ∧ 0 < (500000 : ℚ) ∧
      0 < (75 / 1000 : ℚ) ∧
      get_min_input_capacitance_for_ripple_reduction
          24 5 2 (9 / 10) 500000 (75 / 1000) =
        some ((2 * (5 / (24 * (9 / 10))) * (1 - 5 / (24 * (9 / 10))) *
          1000000) / (500000 * (75 / 1000))) :=
  ⟨by norm_num, by norm_num, by norm_num, by norm_num, by norm_num,
    min_ceramic_capacitance_formula 24 5 2 (9 / 10) 500000 (75 / 1000)
      (by norm_num) (by norm_num) (by norm_num) (by norm_num) (by norm_num)⟩

/-- C3: for `v_in > 0`, `efficiency > 0` and a nonzero
`max_allowed_voltage_change`, the bulk-capacitance estimator computes the
transient current `(v_out / (v_in * efficiency)) * i_tr`, adds a fixed
`50` to the inductance argument (nanohenries), evaluates
`1.21 * i_transient^2 * (l_eff * 1e-9) / dv^2` in farads, and returns that
value multiplied by `1e6` (microfarads). -/
theorem min_bulk_capacitance_formula
    (v_in v_out efficiency i_tr dv l : ℚ)
    (h1 : 0 < v_in) (h3 : 0 < efficiency) (h2 : dv ≠ 0) :
    get_min_input_bulk_capacitance v_in v_out efficiency i_tr dv l =
      some (121 / 100 * (v_out / (v_in * efficiency) * i_tr) ^ 2 *
        ((50 + l) * (1 / 1000000000)) / dv ^ 2 * 1000000) :=
  get_min_input_bulk_capacitance_eq v_in v_out efficiency i_tr dv l
    (by positivity) h2

/-- Witness for C3 at the CLI defaults (`input_inductor` at its bound
default `0.1`). -/
theorem min_bulk_capacitance_formula_witness :
    0 < (24 : ℚ) ∧ 0 < (9 / 10 : ℚ) ∧ (1 / 10 : ℚ) ≠ 0 ∧
      get_min_input_bulk_capacitance 24 5 (9 / 10) 2 (1 / 10) (1 / 10) =
        some (121 / 100 * (5 / (24 * (9 / 10)) * 2) ^ 2 *
          ((50 + 1 / 10) * (1 / 1000000000)) / (1 / 10) ^ 2 * 1000000) :=
  ⟨by norm_num, by norm_num, by norm_num,
    min_bulk_capacitance_formula 24 5 (9 / 10) 2 (1 / 10) (1 / 10)
      (by norm_num) (by norm_num) (by norm_num)⟩

/-- The factoring suggested by the spec: the first step of
`get_min_input_bulk_capacitance` replaced by a call to `get_duty_cycle`
whose result is multiplied by the transient current. -/
def get_min_input_bulk_capacitance_factored
    (v_in v_out efficiency max_output_transient_current
     max_allowed_voltage_change input_filter_inductance : ℚ) : Option ℚ := do
  let d ← get_duty_cycle v_in v_out efficiency
  let input_current_transient := d * max_output_transient_current
  let input_inductance := 50 + input_filter_inductance
  let c_min ← pydiv (121 / 100 * input_current_transient ^ 2 *
      (input_inductance * (1 / 1000000000))) (max_allowed_voltage_change ^ 2)
  some (c_min * 1000000)

/-- C4: the inline transient-current computation of
`get_min_input_bulk_capacitance` coincides with calling `get_duty_cycle`
and multiplying by the transient current: the original function and the
factored one agree on every input. -/
theorem min_bulk_capacitance_factoring
    (v_in v_out efficiency i_tr dv l : ℚ) :
    get_min_input_bulk_capacitance v_in v_out efficiency i_tr dv l =
      get_min_input_bulk_capacitance_factored v_in v_out efficiency
        i_tr dv l :=
  rfl

/-- C5: the CLI default of the `--input-inductor` flag is bound to
`default_v_out_tr_max_allowed`, i.e. it equals `0.1`, not a dedicated
inductance default. -/
theorem input_inductor_default_binding :
    defaultArgs.input_inductor = default_v_out_tr_max_allowed ∧
      defaultArgs.input_inductor = 1 / 10 :=
  ⟨rfl, rfl⟩

/-- C6: with the other two arguments fixed (and `v_in > 0`, `v_out ≥ 0`,
`efficiency > 0`), the duty cycle is monotonically increasing in `v_out`
and monotonically decreasing in `v_in` and in `efficiency`. -/
theorem duty_cycle_monotone :
    (∀ v_in v_out v_out' e d d', 0 < v_in → 0 ≤ v_out → v_out ≤ v_out' →
        0 < e → get_duty_cycle v_in v_out e = some d →
        get_duty_cycle v_in v_out' e = some d' → d ≤ d') ∧
    (∀ v_in v_in' v_out e d d', 0 < v_in → v_in ≤ v_in' → 0 ≤ v_out →
        0 < e → get_duty_cycle v_in v_out e = some d →
        get_duty_cycle v_in' v_out e = some d' → d' ≤ d) ∧
    (∀ v_in v_out e e' d d', 0 < v_in → 0 ≤ v_out → 0 < e → e ≤ e' →
        get_duty_cycle v_in v_out e = some d →
        get_duty_cycle v_in v_out e' = some d' → d' ≤ d) := by
  refine ⟨?_, ?_, ?_⟩
  · intro v_in v_out v_out' e d d' hv ho hoo he hd hd'
    rw [get_duty_cycle_eq v_in v_out e (by positivity)] at hd
    rw [get_duty_cycle_eq v_in v_out' e (by positivity)] at hd'
    injection hd with hd
    injection hd' with hd'
    subst hd; subst hd'
    gcongr
  · intro v_in v_in' v_out e d d' hv hvv ho he hd hd'
    have hv' : 0 < v_in' := lt_of_lt_of_le hv hvv
    rw [get_duty_cycle_eq v_in v_out e (by positivity)] at hd
    rw [get_duty_cycle_eq v_in' v_out e (by positivity)] at hd'
    injection hd with hd
    injection hd' with hd'
    subst hd; subst hd'
    gcongr
  · intro v_in v_out e e' d d' hv ho he hee hd hd'
    have he' : 0 < e' := lt_of_lt_of_le he hee
    rw [get_duty_cycle_eq v_in v_out e (by positivity)] at hd
    rw [get_duty_cycle_eq v_in v_out e' (by positivity)] at hd'
    injection hd with hd
    injection hd' with hd'
    subst hd; subst hd'
    gcongr

/-- Witness for C6: raising `v_out` from 5 to 6, `v_in` from 24 to 48, and
`efficiency` from 0.9 to 1 at the default operating point. -/
theorem duty_cycle_monotone_witness :
    ((25 / 108 : ℚ) ≤ 5 / 18) ∧ ((25 / 216 : ℚ) ≤ 25 / 108) ∧
      ((5 / 24 : ℚ) ≤ 25 / 108) :=
  ⟨duty_cycle_monotone.1 24 5 6 (9 / 10) (25 / 108) (5 / 18)
      (by norm_num) (by norm_num) (by norm_num) (by norm_num)
      (by norm_num [get_duty_cycle, pydiv]) (by norm_num [get_duty_cycle, pydiv]),
    duty_cycle_monotone.2.1 24 48 5 (9 / 10) (25 / 108) (25 / 216)
      (by norm_num) (by norm_num) (by norm_num) (by norm_num)
      (by norm_num [get_duty_cycle, pydiv]) (by norm_num [get_duty_cycle, pydiv]),
    duty_cycle_monotone.2.2 24 5 (9 / 10) 1 (25 / 108) (5 / 24)
      (by norm_num) (by norm_num) (by norm_num) (by norm_num)
      (by norm_num [get_duty_cycle, pydiv]) (by norm_num [get_duty_cycle, pydiv])⟩

/-- C7: for fixed positive `i_out`, `f_sw`, `v_pp_max`, the ceramic
estimator is maximized at any operating point whose duty cycle is `1/2`,
and it is symmetric in the duty cycle: operating points with duty cycles
`d` and `1 - d` give the same result. -/
theorem ceramic_maximized_at_half_duty :
    (∀ i_out f_sw v_pp v_in v_out e v_in' v_out' e' c c',
        0 < i_out → 0 < f_sw → 0 < v_pp → 0 < v_in → 0 < e →
        0 < v_in' → 0 < e' →
        get_duty_cycle v_in' v_out' e' = some (1 / 2) →
        get_min_input_capacitance_for_ripple_reduction
            v_in v_out i_out e f_sw v_pp = some c →
        get_min_input_capacitance_for_ripple_reduction
            v_in' v_out' i_out e' f_sw v_pp = some c' →
        c ≤ c') ∧
    (∀ i_out f_sw v_pp v_in v_out e v_in' v_out' e' d c c',
        0 < f_sw → 0 < v_pp → 0 < v_in → 0 < e → 0 < v_in' → 0 < e' →
        get_duty_cycle v_in v_out e = some d →
        get_duty_cycle v_in' v_out' e' = some (1 - d) →
        get_min_input_capacitance_for_ripple_reduction
            v_in v_out i_out e f_sw v_pp = some c →
        get_min_input_capacitance_for_ripple_reduction
            v_in' v_out' i_out e' f_sw v_pp = some c' →
        c = c') := by
  constructor
  · intro i_out f_sw v_pp v_in v_out e v_in' v_out' e' c c'
      hi hf hp hv he hv' he' hduty hc hc'
    rw [get_duty_cycle_eq v_in' v_out' e' (by positivity)] at hduty
    rw [get_min_input_capacitance_eq v_in v_out i_out e f_sw v_pp
      (by positivity) (by positivity)] at hc
    rw [get_min_input_capacitance_eq v_in' v_out' i_out e' f_sw v_pp
      (by positivity) (by positivity)] at hc'
    injection hduty with hduty
    injection hc with hc
    injection hc' with hc'
    subst hc; subst hc'
    rw [hduty]
    have hden : (0 : ℚ) < f_sw * v_pp := by positivity
    rw [div_le_div_iff_of_pos_right hden]
    nlinarith [mul_nonneg hi.le (sq_nonneg (v_out / (v_in * e) - 1 / 2))]
  · intro i_out f_sw v_pp v_in v_out e v_in' v_out' e' d c c'
      hf hp hv he hv' he' hd hd' hc hc'
    rw [get_duty_cycle_eq v_in v_out e (by positivity)] at hd
    rw [get_duty_cycle_eq v_in' v_out' e' (by positivity)] at hd'
    rw [get_min_input_capacitance_eq v_in v_out i_out e f_sw v_pp
      (by positivity) (by positivity)] at hc
    rw [get_min_input_capacitance_eq v_in' v_out' i_out e' f_sw v_pp
      (by positivity) (by positivity)] at hc'
    injection hd with hd
    injection hd' with hd'
    injection hc with hc
    injection hc' with hc'
    subst hc; subst hc'
    rw [hd', ← hd]
    ring

/-- Witness for C7: the point `(1, 1, 1)` has duty cycle 1 and zero ripple
capacitance, the point `(2, 1, 1)` has duty cycle `1/2` and the maximal
value, and the point `(1, 0, 1)` has duty cycle `1 - 1 = 0` with the same
(zero) result as the duty-cycle-1 point. -/
theorem ceramic_maximized_at_half_duty_witness :
    ((0 : ℚ) ≤ 250000) ∧ ((0 : ℚ) = 0) :=
  ⟨ceramic_maximized_at_half_duty.1 1 1 1 1 1 1 2 1 1 0 250000
      (by norm_num) (by norm_num) (by norm_num) (by norm_num) (by norm_num)
      (by norm_num) (by norm_num)
      (by norm_num [get_duty_cycle, pydiv])
      (by norm_num [get_min_input_capacitance_for_ripple_reduction,
        get_duty_cycle, pydiv])
      (by norm_num [get_min_input_capacitance_for_ripple_reduction,
        get_duty_cycle, pydiv]),
    ceramic_maximized_at_half_duty.2 1 1 1 1 1 1 1 0 1 1 0 0
      (by norm_num) (by norm_num) (by norm_num) (by norm_num) (by norm_num)
      (by norm_num)
      (by norm_num [get_duty_cycle, pydiv])
      (by norm_num [get_duty_cycle, pydiv])
      (by norm_num [get_min_input_capacitance_for_ripple_reduction,
        get_duty_cycle, pydiv])
      (by norm_num [get_min_input_capacitance_for_ripple_reduction,
        get_duty_cycle, pydiv])⟩

/-- C8: with all other arguments fixed (`v_in > 0`, `v_out ≥ 0`,
`efficiency > 0`, nonzero `v_out_tr_max_allowed`), doubling the transient
current exactly quadruples the bulk capacitance, and doubling the allowed
voltage deviation exactly quarters it. -/
theorem bulk_capacitance_scaling
    (v_in v_out e i_tr dv l c : ℚ)
    (h1 : 0 < v_in) (h2 : 0 ≤ v_out) (h3 : 0 < e) (h4 : dv ≠ 0)
    (hc : get_min_input_bulk_capacitance v_in v_out e i_tr dv l = some c) :
    get_min_input_bulk_capacitance v_in v_out e (2 * i_tr) dv l =
        some (4 * c) ∧
      get_min_input_bulk_capacitance v_in v_out e i_tr (2 * dv) l =
        some (c / 4) := by
  rw [get_min_input_bulk_capacitance_eq v_in v_out e i_tr dv l
    (by positivity) h4] at hc
  injection hc with hc
  subst hc
  constructor
  · rw [get_min_input_bulk_capacitance_eq v_in v_out e (2 * i_tr) dv l
      (by positivity) h4]
    congr 1
    ring
  · rw [get_min_input_bulk_capacitance_eq v_in v_out e i_tr (2 * dv) l
      (by positivity) (mul_ne_zero two_ne_zero h4)]
    congr 1
    rw [show ((2 : ℚ) * dv) ^ 2 = dv ^ 2 * 4 by ring, ← div_div]
    ring

/-- Witness for C8 at `v_in = v_out = efficiency = i_tr = dv = 1`,
`l = 0`, where the bulk capacitance is `121/2000` µF. -/
theorem bulk_capacitance_scaling_witness :
    get_min_input_bulk_capacitance 1 1 1 (2 * 1) 1 0 =
        some (4 * (121 / 2000)) ∧
      get_min_input_bulk_capacitance 1 1 1 1 (2 * 1) 0 =
        some (121 / 2000 / 4) :=
  bulk_capacitance_scaling 1 1 1 1 1 0 (121 / 2000)
    (by norm_num) (by norm_num) (by norm_num) (by norm_num)
    (by rw [get_min_input_bulk_capacitance_eq 1 1 1 1 1 0
        (by norm_num) (by norm_num)]; norm_num)

/-- C9: none of the three computation functions guards its divisions: at a
zero denominator (`v_in = 0` or `efficiency = 0`; `f_sw = 0` or
`v_pp_max = 0` in the ceramic estimator; `v_out_tr_max_allowed = 0` in the
bulk estimator) the division failure propagates out of the function
(`none`), with no caught, clamped or substituted result. -/
theorem no_domain_error_guard :
    (∀ v_out e, get_duty_cycle 0 v_out e = none) ∧
    (∀ v_in v_out, get_duty_cycle v_in v_out 0 = none) ∧
    (∀ v_out i_out e f_sw v_pp,
      get_min_input_capacitance_for_ripple_reduction 0 v_out i_out e
        f_sw v_pp = none) ∧
    (∀ v_in v_out i_out f_sw v_pp,
      get_min_input_capacitance_for_ripple_reduction v_in v_out i_out 0
        f_sw v_pp = none) ∧
    (∀ v_in v_out i_out e v_pp,
      get_min_input_capacitance_for_ripple_reduction v_in v_out i_out e
        0 v_pp = none) ∧
    (∀ v_in v_out i_out e f_sw,
      get_min_input_capacitance_for_ripple_reduction v_in v_out i_out e
        f_sw 0 = none) ∧
    (∀ v_out e i_tr dv l,
      get_min_input_bulk_capacitance 0 v_out e i_tr dv l = none) ∧
    (∀ v_in v_out i_tr dv l,
      get_min_input_bulk_capacitance v_in v_out 0 i_tr dv l = none) ∧
    (∀ v_in v_out e i_tr l,
      get_min_input_bulk_capacitance v_in v_out e i_tr 0 l = none) := by
  refine ⟨?_, ?_, ?_, ?_, ?_, ?_, ?_, ?_, ?_⟩
  · intro a b
    simp [get_duty_cycle, pydiv]
  · intro a b
    simp [get_duty_cycle, pydiv]
  · intro a b c d f
    simp [get_min_input_capacitance_for_ripple_reduction, get_duty_cycle,
      pydiv]
  · intro a b c d f
    simp [get_min_input_capacitance_for_ripple_reduction, get_duty_cycle,
      pydiv]
  · intro a b c d f
    rcases eq_or_ne (a * d) 0 with h | h <;>
      simp [get_min_input_capacitance_for_ripple_reduction, get_duty_cycle,
        pydiv, h]
  · intro a b c d f
    rcases eq_or_ne (a * d) 0 with h | h <;>
      simp [get_min_input_capacitance_for_ripple_reduction, get_duty_cycle,
        pydiv, h]
  · intro a b c d f
    simp [get_min_input_bulk_capacitance, pydiv]
  · intro a b c d f
    simp [get_min_input_bulk_capacitance, pydiv]
  · intro a b c d f
    rcases eq_or_ne (a * c) 0 with h | h <;>
      simp [get_min_input_bulk_capacitance, pydiv, h]

/-- C10: for any operating point with all parameters positive and
`v_out > v_in * efficiency` (duty cycle above 1), the ceramic estimator
silently returns a strictly negative capacitance — no clamping to zero and
no error. -/
theorem negative_capacitance_when_duty_above_one
    (v_in v_out i_out e f_sw v_pp : ℚ)
    (h1 : 0 < v_in) (h2 : 0 < e) (h3 : 0 < f_sw) (h4 : 0 < v_pp)
    (h5 : 0 < i_out) (h6 : v_in * e < v_out) :
    ∃ c, get_min_input_capacitance_for_ripple_reduction v_in v_out i_out e
        f_sw v_pp = some c ∧ c < 0 := by
  refine ⟨_, get_min_input_capacitance_eq v_in v_out i_out e f_sw v_pp
    (by positivity) (by positivity), ?_⟩
  have hd : 1 < v_out / (v_in * e) := (one_lt_div (by positivity)).mpr h6
  have hd0 : 0 < v_out / (v_in * e) := lt_trans one_pos hd
  have hnum : i_out * (v_out / (v_in * e)) * (1 - v_out / (v_in * e)) *
      1000 * 1000 < 0 := by
    nlinarith [mul_pos h5 hd0]
  exact div_neg_of_neg_of_pos hnum (by positivity)

/-- Witness for C10 at `v_in = 1`, `v_out = 2`, everything else 1: the
estimator returns a negative capacitance. -/
theorem negative_capacitance_when_duty_above_one_witness :
    ∃ c, get_min_input_capacitance_for_ripple_reduction 1 2 1 1 1 1 =
        some c ∧ c < 0 :=
  negative_capacitance_when_duty_above_one 1 2 1 1 1 1
    (by norm_num) (by norm_num) (by norm_num) (by norm_num) (by norm_num)
    (by norm_num)

end BuckConverter
